import Mathlib

/-!
Verification of the GATT attribute tree builder and the BlueZ transport
layer of the `bluster` crate, as a shallow embedding in Lean 4.

The embedding follows `src/gatt/service.rs`, `src/common.rs` and
`src/bluez/mod.rs`.  Rust `&mut self` methods become state-passing
functions; `std::collections::HashSet` of characteristics becomes a list
with insert-if-absent semantics keyed by the program's own equality;
fallible/panicking control flow becomes an explicit `Outcome` type.
Pieces of the crate that are referenced by the sources but whose own
files are not available (the uuid-only equality/hash macro, the
`Properties`/`PropertyFlags` records, the exporter's address scheme) are
modelled from the specification and marked as such in their doc comments.
-/

namespace Bluster

/-- 128-bit identifiers, modelled as natural numbers with decidable equality. -/
abbrev Uuid := Nat

/-- An `mpsc::Sender<Event>` endpoint, modelled as an opaque token. -/
abbrev EventSender := Nat

/-- Modelled from the spec: `PropertyFlags` is a bit-set of capability
markers (Read, Write, WriteWithoutResponse, Notify, Indicate); its
definition lives in `gatt/gatt_properties.rs`, which is not among the
available sources.  The bitflags `Default` is the empty set. -/
structure PropertyFlags where
  read : Bool := false
  write : Bool := false
  writeWithoutResponse : Bool := false
  notify : Bool := false
  indicate : Bool := false
deriving DecidableEq, Repr

/-- The empty flag set, the bitflags `Default`. -/
def PropertyFlags.empty : PropertyFlags := {}

/-- Modelled from the spec and from the use sites in `gatt/service.rs`:
`Properties<T>` (defined in the unavailable `gatt/gatt_properties.rs`)
holds an optional read endpoint, an optional write endpoint and a flag
set; `Properties::default()` has no endpoints and empty flags. -/
structure Properties (T : Type) where
  read : Option T := none
  write : Option T := none
  flags : PropertyFlags := {}
deriving DecidableEq, Repr

/-- `Characteristic` builder from `gatt/service.rs:67-71`. -/
structure Characteristic where
  uuid : Uuid
  characteristic_properties : Properties EventSender
  descriptor_properties : Properties EventSender
deriving DecidableEq, Repr

/-- `Characteristic::new` (`gatt/service.rs:107-113`): both property
records start at `Properties::default()`. -/
def Characteristic.new (uuid : Uuid) : Characteristic :=
  { uuid := uuid, characteristic_properties := {}, descriptor_properties := {} }

/-- `Characteristic::set_characteristic_read` (`gatt/service.rs:77-80`). -/
def Characteristic.set_characteristic_read (c : Characteristic) (sender : EventSender) :
    Characteristic :=
  { c with characteristic_properties := { c.characteristic_properties with read := some sender } }

/-- `Characteristic::set_characteristic_write` (`gatt/service.rs:82-85`). -/
def Characteristic.set_characteristic_write (c : Characteristic) (sender : EventSender) :
    Characteristic :=
  { c with characteristic_properties := { c.characteristic_properties with write := some sender } }

/-- `Characteristic::set_characteristic_flags` (`gatt/service.rs:87-90`). -/
def Characteristic.set_characteristic_flags (c : Characteristic) (flags : PropertyFlags) :
    Characteristic :=
  { c with characteristic_properties := { c.characteristic_properties with flags := flags } }

/-- `Characteristic::set_descriptor_read` (`gatt/service.rs:92-95`). -/
def Characteristic.set_descriptor_read (c : Characteristic) (sender : EventSender) :
    Characteristic :=
  { c with descriptor_properties := { c.descriptor_properties with read := some sender } }

/-- `Characteristic::set_descriptor_write` (`gatt/service.rs:97-100`). -/
def Characteristic.set_descriptor_write (c : Characteristic) (sender : EventSender) :
    Characteristic :=
  { c with descriptor_properties := { c.descriptor_properties with write := some sender } }

/-- `Characteristic::set_descriptor_flags` (`gatt/service.rs:102-105`).
The source body assigns to `characteristic_properties.flags`, not to
`descriptor_properties.flags`; the embedding reproduces that assignment
verbatim. -/
def Characteristic.set_descriptor_flags (c : Characteristic) (flags : PropertyFlags) :
    Characteristic :=
  { c with characteristic_properties := { c.characteristic_properties with flags := flags } }

/-- Modelled from the spec: the uuid-only equality installed by
`impl_uuid_hash_eq!(Characteristic)` (`gatt/service.rs:73`).  The macro's
definition is not among the available sources; per the spec, equality for
deduplication is defined solely on `uuid`. -/
def Characteristic.beq (a b : Characteristic) : Bool := a.uuid == b.uuid

/-- Modelled from the spec: the uuid-only hash installed by
`impl_uuid_hash_eq!(Characteristic)`; it feeds only the uuid to the
hasher, so it is a function of `uuid` alone. -/
def Characteristic.uuidHash (a : Characteristic) : Nat := hash a.uuid |>.toNat

/-- `ConsumeBuilder` trait (`common.rs:3-5`). -/
class ConsumeBuilder (Builder : Type) (R : Type) where
  consume : R → Builder → R

/-- `ChainedBuilder` struct (`common.rs:9-14`). -/
structure ChainedBuilder (Builder R : Type) [ConsumeBuilder Builder R] where
  builder : Builder
  result : R

/-- `ChainedBuilder::new` (`common.rs:19-24`). -/
def ChainedBuilder.new {Builder R : Type} [ConsumeBuilder Builder R]
    (builder : Builder) (result : R) : ChainedBuilder Builder R :=
  ⟨builder, result⟩

/-- `ChainedBuilder::complete_chain` (`common.rs:26-28`):
`self.result.consume(self.builder)`. -/
def ChainedBuilder.complete_chain {Builder R : Type} [ConsumeBuilder Builder R]
    (c : ChainedBuilder Builder R) : R :=
  ConsumeBuilder.consume c.result c.builder

/-- `Service` struct produced by `ServiceBuilder::build`
(`gatt/service.rs:28-31`): it carries only the uuid and the primary flag. -/
structure Service where
  uuid : Uuid
  primary : Bool
deriving DecidableEq, Repr

/-- `ServiceBuilder` struct (`gatt/service.rs:33-37`).  The
`HashSet<Characteristic>` is modelled as a list with insert-if-absent
semantics (`hashSetInsert` below); the list order plays no role in the
set semantics. -/
structure ServiceBuilder where
  uuid : Uuid
  primary : Bool
  characteristics : List Characteristic
deriving DecidableEq, Repr

/-- `std::collections::HashSet::insert` through the program's
(uuid-only) equality on `Characteristic`: if an equal element is already
present the set is returned unchanged (the previously inserted element is
retained and the argument discarded), otherwise the element is added. -/
def hashSetInsert (s : List Characteristic) (c : Characteristic) : List Characteristic :=
  if s.any (fun x => Characteristic.beq x c) then s else s ++ [c]

/-- `ServiceBuilder::new` (`gatt/service.rs:40-46`). -/
def ServiceBuilder.new (uuid : Uuid) (primary : Bool) : ServiceBuilder :=
  ⟨uuid, primary, []⟩

/-- `ServiceBuilder::consume` (`gatt/service.rs:60-65`):
`self.characteristics.insert(target); self`. -/
def ServiceBuilder.consume (s : ServiceBuilder) (target : Characteristic) : ServiceBuilder :=
  { s with characteristics := hashSetInsert s.characteristics target }

instance instConsumeCharacteristic : ConsumeBuilder Characteristic ServiceBuilder :=
  ⟨ServiceBuilder.consume⟩

/-- `ServiceBuilder::new_characteristic` (`gatt/service.rs:48-50`). -/
def ServiceBuilder.new_characteristic (s : ServiceBuilder) (uuid : Uuid) :
    ChainedBuilder Characteristic ServiceBuilder :=
  ChainedBuilder.new (Characteristic.new uuid) s

/-- `ServiceBuilder::build` (`gatt/service.rs:52-57`): the result holds
only `uuid` and `primary`; the accumulated characteristic set is not part
of the built `Service`. -/
def ServiceBuilder.build (s : ServiceBuilder) : Service :=
  ⟨s.uuid, s.primary⟩

/-- One step of the chained construction: `new_characteristic(u)`
immediately followed by `complete_chain()`. -/
def ServiceBuilder.addCharacteristic (s : ServiceBuilder) (u : Uuid) : ServiceBuilder :=
  (s.new_characteristic u).complete_chain

/-- A whole construction run: start a builder and push each uuid of the
sequence through `new_characteristic` / `complete_chain` in order. -/
def buildSeq (uuid : Uuid) (primary : Bool) (uuids : List Uuid) : ServiceBuilder :=
  uuids.foldl ServiceBuilder.addCharacteristic (ServiceBuilder.new uuid primary)

/-- The uuids held by a builder, in the order of the list model. -/
def uuidsOf (s : ServiceBuilder) : List Uuid :=
  s.characteristics.map Characteristic.uuid

/-! ### Exporter address scheme (bluez) -/

/-- `PATH_BASE` constant (`bluez/mod.rs:37`). -/
def PATH_BASE : String := "/org/bluez/example"

/-- Modelled from the spec: the Tree Assembler / Exporter is not among
the available sources; per spec section 4.5 a characteristic's address is
`<base>/service<N>/char<M>` with zero-based indices in sibling insertion
order. -/
def charAddress (base : String) (n m : Nat) : String :=
  base ++ "/service" ++ toString n ++ "/char" ++ toString m

/-- The sibling insertion order induced by a construction sequence: the
distinct uuids in order of first occurrence. -/
def insertionOrder (uuids : List Uuid) : List Uuid :=
  uuids.foldl (fun acc u => if u ∈ acc then acc else acc ++ [u]) []

/-- Modelled from the spec: the exporter's address assignment for the
characteristics of service number `n` built from a construction
sequence — each distinct uuid, in sibling insertion order, is paired with
`<base>/service<n>/char<m>` where `m` is its zero-based index. -/
def exportAddresses (base : String) (n : Nat) (siblings : List Uuid) :
    List (Uuid × String) :=
  (insertionOrder siblings).enum.map (fun e => (e.2, charAddress base n e.1))

/-! ### BlueZ transport layer (`bluez/mod.rs`) -/

/-- `BLUEZ_SERVICE_NAME` constant (`bluez/mod.rs:18`). -/
def BLUEZ_SERVICE_NAME : String := "org.bluez"

/-- `LE_ADVERTISING_MANAGER_IFACE` constant (`bluez/mod.rs:22`). -/
def LE_ADVERTISING_MANAGER_IFACE : String := "org.bluez.LEAdvertisingManager1"

/-- `BLUEZ_DBUS_TIMEOUT` (`bluez/mod.rs:39`): `Duration::from_secs(30)`,
modelled in seconds. -/
def BLUEZ_DBUS_TIMEOUT : Nat := 30

/-- A D-Bus object path. -/
abbrev ObjectPath := String

/-- A `dbus::nonblock::Proxy`: destination service name, object path and
the per-request timeout it carries. -/
structure Proxy where
  dest : String
  path : ObjectPath
  timeout : Nat
deriving DecidableEq, Repr

/-- `DBusConnection::get_bluez_proxy` (`bluez/mod.rs:66-69`): every proxy
is created with destination `BLUEZ_SERVICE_NAME` and timeout
`BLUEZ_DBUS_TIMEOUT`. -/
def get_bluez_proxy (path : ObjectPath) : Proxy :=
  ⟨BLUEZ_SERVICE_NAME, path, BLUEZ_DBUS_TIMEOUT⟩

/-- The proxy used by `BluezPeripheral::find_adapter`
(`bluez/mod.rs:81-87`): `get_bluez_proxy` at the root path. -/
def find_adapter_request_proxy : Proxy := get_bluez_proxy "/"

/-- The proxy used by `Peripheral::set` for property-set requests
(`bluez/mod.rs:114-124`). -/
def set_request_proxy (object_path : ObjectPath) : Proxy :=
  get_bluez_proxy object_path

/-- The proxy used by `DBusGet::dbus_get`, serving `Peripheral::get`
property-get requests (`bluez/mod.rs:145-150`). -/
def get_request_proxy (object_path : ObjectPath) : Proxy :=
  get_bluez_proxy object_path

/-- A D-Bus error value (name and message), as carried by
`dbus::Error`. -/
structure DbusError where
  name : String
  message : String
deriving DecidableEq, Repr

/-- The result of `GetManagedObjects`: for each object path, the names of
the interfaces it exposes (the property maps play no role here). -/
abbrev ManagedObjectsProps := List (ObjectPath × List String)

/-- The outcome of running a fallible, possibly panicking computation:
normal return, `Err` return, or a panic with its message. -/
inductive Outcome (α : Type) where
  | ok : α → Outcome α
  | err : DbusError → Outcome α
  | panics : String → Outcome α
deriving DecidableEq, Repr

/-- `BluezPeripheral` (`bluez/mod.rs:74-78`), reduced to the data the
claims concern: the discovered adapter object path. -/
structure BluezPeripheral where
  object_path : ObjectPath
deriving DecidableEq, Repr

/-- `BluezPeripheral::find_adapter` (`bluez/mod.rs:81-93`), parametrised
by the outcome of the `GetManagedObjects` call.  A transport error from
the call propagates through `?` as `Err`; a successful call is searched
for an object exposing `LEAdvertisingManager1`, and when none is found
the `.expect(...)` panics with the fixed message. -/
def find_adapter (call : Except DbusError ManagedObjectsProps) : Outcome ObjectPath :=
  match call with
  | Except.error e => Outcome.err e
  | Except.ok props =>
    match props.find? (fun pr => pr.2.contains LE_ADVERTISING_MANAGER_IFACE) with
    | some pr => Outcome.ok pr.1
    | none => Outcome.panics "LEAdvertisingManager1 interface not found"

/-- `BluezPeripheral::new` (`bluez/mod.rs:98-106`), parametrised by the
outcome of the `GetManagedObjects` call made by `find_adapter`: it maps a
successful `find_adapter` into a peripheral and otherwise propagates what
`find_adapter` did (error return or panic). -/
def BluezPeripheral.new (call : Except DbusError ManagedObjectsProps) :
    Outcome BluezPeripheral :=
  match find_adapter call with
  | Outcome.ok p => Outcome.ok ⟨p⟩
  | Outcome.err e => Outcome.err e
  | Outcome.panics m => Outcome.panics m

/-! ### Theorems -/

/-- C4: for every child builder `b` and parent builder `p`,
`complete_chain()` on `ChainedBuilder::new(b, p)` returns exactly
`p.consume(b)` — the finalized child is handed to the parent's `consume`
and the parent builder is returned for further chaining. -/
theorem complete_chain_eq_consume {Builder R : Type} [ConsumeBuilder Builder R]
    (b : Builder) (p : R) :
    (ChainedBuilder.new b p).complete_chain = ConsumeBuilder.consume p b :=
  rfl

/-- Witness for C4 at the repository's own instance: a fresh
characteristic chained onto a fresh service builder. -/
theorem complete_chain_eq_consume_witness :
    (ChainedBuilder.new (Characteristic.new 1) (ServiceBuilder.new 0 true)).complete_chain
      = ConsumeBuilder.consume (ServiceBuilder.new 0 true) (Characteristic.new 1) :=
  complete_chain_eq_consume (Characteristic.new 1) (ServiceBuilder.new 0 true)

/-- C5 (code bug evaluation): `set_descriptor_flags` leaves
`descriptor_properties.flags` at its previous (default) value and instead
assigns the argument to `characteristic_properties.flags` — the opposite
of what the claim states. -/
theorem set_descriptor_flags_targets_characteristic_flags :
    ((Characteristic.new 3).set_descriptor_flags
        { read := true : PropertyFlags }).descriptor_properties.flags
      = PropertyFlags.empty
    ∧ ((Characteristic.new 3).set_descriptor_flags
        { read := true : PropertyFlags }).characteristic_properties.flags
      = { read := true : PropertyFlags } := by
  constructor <;> rfl

/-- C3 counterexample: a characteristic whose Read flag is unset still
accepts a read channel — `set_characteristic_read` stores the endpoint,
so a channel exists while the corresponding flag bit is clear, refuting
the claimed biconditional and the claimed rejection of the attachment. -/
theorem read_channel_without_read_flag_cex :
    ((Characteristic.new 7).set_characteristic_read 1).characteristic_properties.read = some 1
    ∧ ((Characteristic.new 7).set_characteristic_read 1).characteristic_properties.flags.read
      = false := by
  constructor <;> rfl

/-- C3 (amended): channel attachment is unconditional — each channel
setter stores the endpoint irrespective of the current `PropertyFlags`
and leaves the flags unchanged, so no biconditional between flags and
channel presence is established or maintained by builder operations. -/
theorem channel_attachment_unconditional (c : Characteristic) (s : EventSender) :
    ((c.set_characteristic_read s).characteristic_properties.read = some s
      ∧ (c.set_characteristic_read s).characteristic_properties.flags
          = c.characteristic_properties.flags)
    ∧ ((c.set_characteristic_write s).characteristic_properties.write = some s
      ∧ (c.set_characteristic_write s).characteristic_properties.flags
          = c.characteristic_properties.flags)
    ∧ ((c.set_descriptor_read s).descriptor_properties.read = some s
      ∧ (c.set_descriptor_read s).descriptor_properties.flags
          = c.descriptor_properties.flags)
    ∧ ((c.set_descriptor_write s).descriptor_properties.write = some s
      ∧ (c.set_descriptor_write s).descriptor_properties.flags
          = c.descriptor_properties.flags) := by
  refine ⟨⟨rfl, rfl⟩, ⟨rfl, rfl⟩, ⟨rfl, rfl⟩, ⟨rfl, rfl⟩⟩

/-- C1 counterexample: completing a chain whose child duplicates the uuid
of a characteristic the parent already holds does not fail — it returns
the parent builder unchanged, a plain `ServiceBuilder` (the codomain of
`consume` has no error alternative, so no `DuplicateAttribute` can
surface). -/
theorem complete_chain_duplicate_cex :
    (ChainedBuilder.new (Characteristic.new 5)
        ((ServiceBuilder.new 0 true).consume (Characteristic.new 5))).complete_chain
      = (ServiceBuilder.new 0 true).consume (Characteristic.new 5) := by
  decide

/-- C1 (amended): when the parent already holds a characteristic with the
child's uuid, `complete_chain` returns the parent builder unchanged — the
duplicate is silently discarded and no error of any kind is produced. -/
theorem complete_chain_duplicate_returns_parent_unchanged
    (b : ServiceBuilder) (c : Characteristic)
    (h : b.characteristics.any (fun x => Characteristic.beq x c) = true) :
    (ChainedBuilder.new c b).complete_chain = b := by
  obtain ⟨u, p, cs⟩ := b
  simp only [ChainedBuilder.complete_chain, ChainedBuilder.new,
    instConsumeCharacteristic, ServiceBuilder.consume, hashSetInsert]
  simp only at h
  simp [h]

/-- Witness for C1's amended theorem: a builder already holding uuid 5
receives a second characteristic with uuid 5. -/
theorem complete_chain_duplicate_returns_parent_unchanged_witness :
    ((ServiceBuilder.new 0 true).consume (Characteristic.new 5)).characteristics.any
        (fun x => Characteristic.beq x (Characteristic.new 5)) = true
    ∧ (ChainedBuilder.new (Characteristic.new 5)
          ((ServiceBuilder.new 0 true).consume (Characteristic.new 5))).complete_chain
        = (ServiceBuilder.new 0 true).consume (Characteristic.new 5) :=
  ⟨by decide,
   complete_chain_duplicate_returns_parent_unchanged _ _ (by decide)⟩

/-- C8: `consume` with a characteristic whose uuid duplicates one already
held returns normally and leaves the characteristic set unchanged — the
first-inserted characteristic is kept, and the newly offered one (when it
is not literally the stored one) is not added. -/
theorem consume_duplicate_keeps_first (b : ServiceBuilder) (c c0 : Characteristic)
    (hmem : c0 ∈ b.characteristics) (huuid : c0.uuid = c.uuid) :
    b.consume c = b
    ∧ c0 ∈ (b.consume c).characteristics
    ∧ (c ∉ b.characteristics → c ∉ (b.consume c).characteristics) := by
  have hany : b.characteristics.any (fun x => Characteristic.beq x c) = true :=
    List.any_eq_true.mpr ⟨c0, hmem, by simp [Characteristic.beq, huuid]⟩
  have hunch : b.consume c = b := by
    obtain ⟨u, p, cs⟩ := b
    simp only at hany
    simp [ServiceBuilder.consume, hashSetInsert, hany]
  refine ⟨hunch, ?_, ?_⟩
  · rw [hunch]; exact hmem
  · intro hnotmem; rw [hunch]; exact hnotmem

/-- Witness for C8: the stored characteristic and the discarded duplicate
share uuid 5 but differ in their flags. -/
theorem consume_duplicate_keeps_first_witness :
    ((ServiceBuilder.new 0 true).consume (Characteristic.new 5)).consume
        ((Characteristic.new 5).set_characteristic_flags { read := true : PropertyFlags })
      = (ServiceBuilder.new 0 true).consume (Characteristic.new 5)
    ∧ Characteristic.new 5
        ∈ (((ServiceBuilder.new 0 true).consume (Characteristic.new 5)).consume
            ((Characteristic.new 5).set_characteristic_flags
              { read := true : PropertyFlags })).characteristics
    ∧ ((Characteristic.new 5).set_characteristic_flags { read := true : PropertyFlags }
          ∉ ((ServiceBuilder.new 0 true).consume (Characteristic.new 5)).characteristics
        → (Characteristic.new 5).set_characteristic_flags { read := true : PropertyFlags }
          ∉ (((ServiceBuilder.new 0 true).consume (Characteristic.new 5)).consume
              ((Characteristic.new 5).set_characteristic_flags
                { read := true : PropertyFlags })).characteristics) :=
  consume_duplicate_keeps_first
    ((ServiceBuilder.new 0 true).consume (Characteristic.new 5))
    ((Characteristic.new 5).set_characteristic_flags { read := true : PropertyFlags })
    (Characteristic.new 5) (by decide) (by decide)

/-- C7: two characteristics are equal under the program's equality
exactly when their uuids are equal, and the hash is determined by the
uuid alone — flags and channel endpoints play no part in either. -/
theorem characteristic_eq_hash_uuid_only (a b : Characteristic) :
    (Characteristic.beq a b = true ↔ a.uuid = b.uuid)
    ∧ (a.uuid = b.uuid → Characteristic.uuidHash a = Characteristic.uuidHash b) := by
  constructor
  · simp [Characteristic.beq]
  · intro h; simp [Characteristic.uuidHash, h]

/-- Witness for C7: same uuid, different flags and channels — still equal
with equal hashes. -/
theorem characteristic_eq_hash_uuid_only_witness :
    Characteristic.beq (Characteristic.new 9)
        (((Characteristic.new 9).set_characteristic_flags
          { read := true, write := true : PropertyFlags }).set_characteristic_read 2) = true
    ∧ Characteristic.uuidHash (Characteristic.new 9)
      = Characteristic.uuidHash
          (((Characteristic.new 9).set_characteristic_flags
            { read := true, write := true : PropertyFlags }).set_characteristic_read 2) :=
  ⟨(characteristic_eq_hash_uuid_only (Characteristic.new 9)
      (((Characteristic.new 9).set_characteristic_flags
        { read := true, write := true : PropertyFlags }).set_characteristic_read 2)).1.mpr rfl,
   (characteristic_eq_hash_uuid_only (Characteristic.new 9)
      (((Characteristic.new 9).set_characteristic_flags
        { read := true, write := true : PropertyFlags }).set_characteristic_read 2)).2 rfl⟩

/-- C10: every remote-request proxy — adapter discovery, property get and
property set — is built through `get_bluez_proxy` and carries the fixed
30-second `BLUEZ_DBUS_TIMEOUT`. -/
theorem bluez_requests_carry_thirty_second_timeout
    (path opath1 opath2 : ObjectPath) :
    (get_bluez_proxy path).timeout = 30
    ∧ find_adapter_request_proxy.timeout = 30
    ∧ (get_request_proxy opath1).timeout = 30
    ∧ (set_request_proxy opath2).timeout = 30 := by
  refine ⟨rfl, rfl, rfl, rfl⟩

/-- C9: when the `GetManagedObjects` call succeeds but no returned object
exposes the `LEAdvertisingManager1` interface, `BluezPeripheral::new`
panics with the `expect` message; the `Result` error branch is not used
for the missing-adapter case. -/
theorem new_panics_when_no_advertising_manager (props : ManagedObjectsProps)
    (h : props.all
      (fun pr => !(pr.2.contains LE_ADVERTISING_MANAGER_IFACE)) = true) :
    BluezPeripheral.new (Except.ok props)
      = Outcome.panics "LEAdvertisingManager1 interface not found"
    ∧ ∀ e, BluezPeripheral.new (Except.ok props) ≠ Outcome.err e := by
  have hfind : props.find?
      (fun pr => pr.2.contains LE_ADVERTISING_MANAGER_IFACE) = none := by
    rw [List.find?_eq_none]
    intro x hx
    have hall := List.all_eq_true.mp h x hx
    simpa using hall
  have hstep : find_adapter (Except.ok props)
      = match props.find? (fun pr => pr.2.contains LE_ADVERTISING_MANAGER_IFACE) with
        | some pr => Outcome.ok pr.1
        | none => Outcome.panics "LEAdvertisingManager1 interface not found" := rfl
  have hfa : find_adapter (Except.ok props)
      = Outcome.panics "LEAdvertisingManager1 interface not found" := by
    rw [hstep, hfind]
  have hnew : BluezPeripheral.new (Except.ok props)
      = Outcome.panics "LEAdvertisingManager1 interface not found" := by
    unfold BluezPeripheral.new
    rw [hfa]
  exact ⟨hnew, fun e => by rw [hnew]; exact fun hcontra => Outcome.noConfusion hcontra⟩

/-- Witness for C9: an enumeration that contains an adapter object but no
object with the advertising-manager interface. -/
theorem new_panics_when_no_advertising_manager_witness :
    ([("/org/bluez/hci0", ["org.bluez.Adapter1"])] : ManagedObjectsProps).all
        (fun pr => !(pr.2.contains LE_ADVERTISING_MANAGER_IFACE)) = true
    ∧ BluezPeripheral.new
          (Except.ok [("/org/bluez/hci0", ["org.bluez.Adapter1"])])
        = Outcome.panics "LEAdvertisingManager1 interface not found" :=
  ⟨by decide,
   (new_panics_when_no_advertising_manager
      [("/org/bluez/hci0", ["org.bluez.Adapter1"])] (by decide)).1⟩

/-- C6: the exporter's address assignment is a pure function of the
sibling insertion order — two construction runs inducing the same
insertion order of uuids receive identical addresses for every
characteristic. -/
theorem exportAddresses_pure_in_insertion_order (base : String) (n : Nat)
    (s1 s2 : List Uuid) (h : insertionOrder s1 = insertionOrder s2) :
    exportAddresses base n s1 = exportAddresses base n s2 := by
  unfold exportAddresses
  rw [h]

/-- Witness for C6: two different construction sequences with the same
first-occurrence order of uuids get identical address assignments. -/
theorem exportAddresses_pure_in_insertion_order_witness :
    insertionOrder [3, 5, 3] = insertionOrder [3, 3, 5]
    ∧ exportAddresses PATH_BASE 0 [3, 5, 3] = exportAddresses PATH_BASE 0 [3, 3, 5] :=
  ⟨by decide,
   exportAddresses_pure_in_insertion_order PATH_BASE 0 [3, 5, 3] [3, 3, 5] (by decide)⟩

/-- C2 counterexample: the `Service` value produced by `build` carries no
characteristic set — two runs, one inserting one characteristic and one
inserting none, build literally the same `Service` value, so the built
Service cannot have "a characteristic set whose size equals the number of
distinct uuids passed to new_characteristic" for both runs. -/
theorem build_discards_characteristics_cex :
    (buildSeq 0 true [1]).build = (buildSeq 0 true []).build
    ∧ (buildSeq 0 true [1]).characteristics ≠ (buildSeq 0 true []).characteristics
    ∧ ([1] : List Uuid).toFinset.card ≠ ([] : List Uuid).toFinset.card := by
  refine ⟨by decide, by decide, by decide⟩

/-- Helper for C2: one `new_characteristic`/`complete_chain` step either
leaves the builder's uuid list unchanged (duplicate uuid) or appends the
new uuid at the end. -/
theorem uuidsOf_addCharacteristic (s : ServiceBuilder) (u : Uuid) :
    uuidsOf (s.addCharacteristic u)
      = if u ∈ uuidsOf s then uuidsOf s else uuidsOf s ++ [u] := by
  obtain ⟨su, sp, cs⟩ := s
  simp only [ServiceBuilder.addCharacteristic, ServiceBuilder.new_characteristic,
    ChainedBuilder.complete_chain, ChainedBuilder.new, instConsumeCharacteristic,
    ServiceBuilder.consume, hashSetInsert, uuidsOf]
  by_cases h : u ∈ List.map Characteristic.uuid cs
  · obtain ⟨x, hx, hxu⟩ := List.mem_map.mp h
    have hany : cs.any (fun x => Characteristic.beq x (Characteristic.new u)) = true :=
      List.any_eq_true.mpr ⟨x, hx, by simp [Characteristic.beq, Characteristic.new, hxu]⟩
    simp [hany, h]
  · have hany : cs.any (fun x => Characteristic.beq x (Characteristic.new u)) = false := by
      cases hb : cs.any (fun x => Characteristic.beq x (Characteristic.new u)) with
      | false => rfl
      | true =>
        obtain ⟨x, hx, hxu⟩ := List.any_eq_true.mp hb
        have hxu2 : Characteristic.uuid x = u := by
          simpa [Characteristic.beq, Characteristic.new] using hxu
        exact absurd (List.mem_map.mpr ⟨x, hx, hxu2⟩) h
    rw [if_neg (by simp only [hany]; decide :
      ¬((cs.any fun x => Characteristic.beq x (Characteristic.new u)) = true))]
    rw [if_neg h]
    simp [Characteristic.new]

/-- Helper for C2: folding a construction sequence over a builder with
duplicate-free uuids keeps the uuids duplicate-free and makes the uuid
set the union of what was there with the uuids of the sequence. -/
theorem buildSeq_nodup_toFinset (seq : List Uuid) :
    ∀ s : ServiceBuilder, (uuidsOf s).Nodup →
      (uuidsOf (seq.foldl ServiceBuilder.addCharacteristic s)).Nodup
      ∧ (uuidsOf (seq.foldl ServiceBuilder.addCharacteristic s)).toFinset
          = (uuidsOf s).toFinset ∪ seq.toFinset := by
  induction seq with
  | nil =>
    intro s h
    exact ⟨h, by simp⟩
  | cons u rest ih =>
    intro s h
    rw [List.foldl_cons]
    have hstep := uuidsOf_addCharacteristic s u
    by_cases hm : u ∈ uuidsOf s
    · rw [if_pos hm] at hstep
      have hnd : (uuidsOf (s.addCharacteristic u)).Nodup := by rw [hstep]; exact h
      obtain ⟨h1, h2⟩ := ih (s.addCharacteristic u) hnd
      refine ⟨h1, ?_⟩
      rw [h2, hstep, List.toFinset_cons, Finset.union_insert,
        Finset.insert_eq_self.mpr
          (Finset.mem_union_left _ (List.mem_toFinset.mpr hm))]
    · rw [if_neg hm] at hstep
      have hnd : (uuidsOf (s.addCharacteristic u)).Nodup := by
        rw [hstep]
        refine List.Nodup.append h (List.nodup_singleton u) ?_
        intro a ha hb
        rw [List.mem_singleton] at hb
        subst hb
        exact hm ha
      obtain ⟨h1, h2⟩ := ih (s.addCharacteristic u) hnd
      refine ⟨h1, ?_⟩
      rw [h2, hstep, List.toFinset_append]
      ext x
      simp only [Finset.mem_union, List.mem_toFinset, List.toFinset_cons,
        Finset.mem_insert, List.mem_singleton]
      tauto

/-- C2 (amended): the `ServiceBuilder` accumulates exactly one
characteristic per distinct uuid passed to `new_characteristic` — the
size of the builder's characteristic set equals the number of distinct
uuids of the construction sequence.  (The `Service` value produced by
`build` carries no characteristic set at all; see the counterexample.) -/
theorem builder_characteristics_count_eq_distinct_uuids
    (u : Uuid) (p : Bool) (seq : List Uuid) :
    (buildSeq u p seq).characteristics.length = seq.toFinset.card := by
  simp only [buildSeq]
  obtain ⟨h1, h2⟩ := buildSeq_nodup_toFinset seq (ServiceBuilder.new u p)
    (by simp [uuidsOf, ServiceBuilder.new])
  have hlen :
      (uuidsOf (seq.foldl ServiceBuilder.addCharacteristic (ServiceBuilder.new u p))).length
        = (seq.foldl ServiceBuilder.addCharacteristic
            (ServiceBuilder.new u p)).characteristics.length := by
    simp [uuidsOf]
  rw [← hlen, ← List.toFinset_card_of_nodup h1, h2]
  simp [uuidsOf, ServiceBuilder.new]

end Bluster
